import Mathlib

/-!
# Verification of `dir-merge` (src/dir_merge/cli.py)

A shallow embedding of the `dir-merge` CLI: a tool that stages a merge of a
`target` directory onto a `source` directory inside a throwaway git repository,
lets the user edit interactively, and propagates the result to an output
directory with `rsync`.

Directory trees are modelled as association lists from relative paths (lists of
path components) to file contents.  The external tools are modelled by their
documented primitive semantics exactly as invoked by the code:
`git checkout -- .` restores tracked paths from the index, `git clean -fd`
removes untracked files, and `rsync -av --delete --exclude=.git src/ dst/`
makes the destination's contents equal the source's contents outside `.git`,
preserving `.git` on both sides.
-/

namespace DirMerge

/-- A path relative to a directory root, as its list of components. -/
abbrev RelPath := List String

/-- A directory tree: an association of relative paths to file contents. -/
abbrev FileMap := List (RelPath × String)

/-- Whether a relative path lies inside the version-control metadata subtree
`.git`. -/
def underGit (p : RelPath) : Bool :=
  match p with
  | [] => false
  | c :: _ => c == ".git"

/-- The entries of a tree outside the `.git` subtree. -/
def nonGit (m : FileMap) : FileMap :=
  m.filter (fun e => !underGit e.1)

/-- The entries of a tree inside the `.git` subtree. -/
def gitPart (m : FileMap) : FileMap :=
  m.filter (fun e => underGit e.1)

/-- Does a tree contain any entry under `.git`? -/
def hasGit (m : FileMap) : Bool :=
  m.any (fun e => underGit e.1)

/-- Content lookup at a path. -/
def find (m : FileMap) (p : RelPath) : Option String :=
  (m.find? (fun e => e.1 == p)).map (fun e => e.2)

/-- `rsync -av --delete --exclude=.git src/ dst/` (cli.py lines 112-123 and
212-223): the destination's contents become the source's contents for every
path outside `.git` (extraneous destination files are deleted), while `.git`
is excluded from the transfer and protected from deletion on the receiver. -/
def mirror (src dst : FileMap) : FileMap :=
  nonGit src ++ gitPart dst

/-- The state git keeps for the staging repository: the index and the list of
commits (each a snapshot of the index at commit time). -/
structure GitMeta where
  index : FileMap
  commits : List FileMap
deriving DecidableEq

/-- A staging directory: its regular working files plus the optional `.git`
metadata (present once `git init` has run). -/
structure Staging where
  files : FileMap
  git : Option GitMeta
deriving DecidableEq

/-- `git init` (cli.py line 75): creates empty metadata. -/
def gitInit (s : Staging) : Staging :=
  { s with git := some ⟨[], []⟩ }

/-- `git add .` (cli.py line 97): stages the working tree into the index
(git never tracks its own `.git` directory). -/
def gitAddAll (s : Staging) : Staging :=
  match s.git with
  | some g => { s with git := some ⟨nonGit s.files, g.commits⟩ }
  | none => s

/-- `git commit -m "BASE"` (cli.py line 103): records the index as a commit. -/
def gitCommit (s : Staging) : Staging :=
  match s.git with
  | some g => { s with git := some ⟨g.index, g.commits ++ [g.index]⟩ }
  | none => s

/-- `git checkout -- .` (cli.py line 196): every tracked path is restored to
its index content (discarding unstaged modifications and restoring deleted
tracked files); untracked files are kept. -/
def gitCheckoutAll (s : Staging) : Staging :=
  match s.git with
  | some g =>
      { s with files := g.index ++ s.files.filter (fun e => (find g.index e.1).isNone) }
  | none => s

/-- `git clean -fd` (cli.py line 203): untracked files are removed. -/
def gitClean (s : Staging) : Staging :=
  match s.git with
  | some g => { s with files := s.files.filter (fun e => (find g.index e.1).isSome) }
  | none => s

/-- The reset performed by `finish_command` (cli.py lines 194-208): checkout
from the index, then clean untracked files. -/
def resetToCommitted (s : Staging) : Staging :=
  gitClean (gitCheckoutAll s)

/-- The overlay of target onto the staging directory during `merge_command`
(cli.py lines 110-123): rsync onto the working files, `.git` preserved. -/
def overlayTarget (target : FileMap) (s : Staging) : Staging :=
  { s with files := mirror target s.files }

/-- The staging construction in `merge_command` (cli.py lines 65-123):
copy source into a fresh temp dir, `git init`, configure identity, `git add .`,
commit `"BASE"`, then overlay the target with rsync. -/
def startStaging (source target : FileMap) : Staging :=
  overlayTarget target (gitCommit (gitAddAll (gitInit ⟨source, none⟩)))

/-- The propagation step of `finish_command` (cli.py lines 194-223): reset the
staging tree to index state, then mirror it onto the output directory. -/
def finishOutput (s : Staging) (output : FileMap) : FileMap :=
  mirror (resetToCommitted s).files output

/-! ## Basic tree lemmas -/

theorem find_isSome_of_mem {m : FileMap} {e : RelPath × String} (h : e ∈ m) :
    (find m e.1).isSome := by
  unfold find
  have hf : (m.find? (fun q => q.1 == e.1)).isSome :=
    List.find?_isSome.mpr ⟨e, h, by simp⟩
  rcases Option.isSome_iff_exists.mp hf with ⟨a, ha⟩
  simp [ha]

theorem gitPart_eq_nil {m : FileMap} (h : hasGit m = false) : gitPart m = [] := by
  unfold gitPart
  rw [List.filter_eq_nil_iff]
  intro e he
  have := List.any_eq_false.mp h e he
  simpa using this

theorem nonGit_eq_self {m : FileMap} (h : hasGit m = false) : nonGit m = m := by
  unfold nonGit
  rw [List.filter_eq_self]
  intro e he
  have := List.any_eq_false.mp h e he
  simpa using this

theorem hasGit_nonGit (m : FileMap) : hasGit (nonGit m) = false := by
  unfold hasGit nonGit
  rw [List.any_eq_false]
  intro e he
  have := (List.mem_filter.mp he).2
  simpa using this

/-- After checkout-from-index and clean, the working files are exactly the
index. -/
theorem resetToCommitted_files (g : GitMeta) (w : FileMap) :
    (resetToCommitted ⟨w, some g⟩).files = g.index := by
  unfold resetToCommitted gitCheckoutAll gitClean
  simp only
  rw [List.filter_append]
  have h1 : g.index.filter (fun e => (find g.index e.1).isSome) = g.index := by
    rw [List.filter_eq_self]
    intro e he
    exact find_isSome_of_mem he
  have h2 : (w.filter (fun e => (find g.index e.1).isNone)).filter
      (fun e => (find g.index e.1).isSome) = [] := by
    rw [List.filter_eq_nil_iff]
    intro e he
    have h3 := (List.mem_filter.mp he).2
    simp only [Option.isNone_iff_eq_none] at h3
    simp [h3]
  rw [h1, h2, List.append_nil]

/-- The git metadata produced by the staging construction: the index is the
source tree and `"BASE"` is its only commit. -/
theorem startStaging_git (source target : FileMap) :
    (startStaging source target).git = some ⟨nonGit source, [nonGit source]⟩ := rfl

/-- The working tree produced by the staging construction. -/
theorem startStaging_files (source target : FileMap) (hs : hasGit source = false) :
    (startStaging source target).files = nonGit target := by
  unfold startStaging overlayTarget gitCommit gitAddAll gitInit mirror
  simp only
  rw [gitPart_eq_nil hs, List.append_nil]

/-! ## Session-level model

`SessionRecord` embeds the JSON record written to `~/.config/dir-merge/session.json`
(cli.py lines 126-132 and 146-148).  `World` gathers the state a command
invocation can observe and change: the single-slot store, the caller's current
working directory, the existence and contents of the staging directory, the
output directory's contents, and the set of live process ids (`os.kill`
succeeds exactly on those).
-/

/-- The serialized session state (cli.py lines 126-132; `shell_pid` is added by
the second save at lines 146-148, so it is optional). -/
structure SessionRecord where
  temp_repo_path : String
  original_cwd : String
  output_dir : String
  source_dir : String
  target_dir : String
  shell_pid : Option Int
deriving DecidableEq

/-- The errors the commands report before exiting with status 1. -/
inductive CmdErr where
  | noActiveSession : CmdErr
  | sourceMissing : CmdErr
  | targetMissing : CmdErr
  | wrongLocation (expected actual : String) : CmdErr
  | stagingMissing : CmdErr
  | killFailed (pid : Int) : CmdErr
deriving DecidableEq

/-- The observable state surrounding one command invocation. -/
structure World where
  store : Option SessionRecord
  cwd : String
  stagingExists : Bool
  staging : Staging
  output : FileMap
  livePids : List Int
deriving DecidableEq

/-- Result of a command: the world afterwards, the process exit code, and the
reported error, if any. -/
structure Outcome where
  world : World
  exitCode : Nat
  err : Option CmdErr
deriving DecidableEq

/-- The final step of `finish_command` (cli.py lines 229-243): after teardown
`w2`, `os.kill(shell_pid, 9)` is attempted when the recorded pid is positive
(`int(state.get("shell_pid", -1))`).  Killing a pid that is not live raises
`ProcessLookupError`, which the generic handler at line 248 turns into exit
status 1; a successful kill (or a non-positive pid) exits with status 0. -/
def killStep (w2 : World) (pid : Int) (live : List Int) : Outcome :=
  if 0 < pid then
    if pid ∈ live then ⟨w2, 0, none⟩
    else ⟨w2, 1, some (CmdErr.killFailed pid)⟩
  else ⟨w2, 0, none⟩

/-- Transcription of `finish_command` (cli.py lines 161-250): load the record
(error if absent), require cwd = staging path, require the staging directory
to exist (clearing the record otherwise), reset the staging tree to index
state, mirror it onto output, delete the staging directory, clear the record,
and finally attempt the kill.  The git and rsync subprocesses are assumed to
succeed (their failure paths are outside the verified claims). -/
def finish_command (w : World) : Outcome :=
  match w.store with
  | none => ⟨w, 1, some CmdErr.noActiveSession⟩
  | some st =>
    if w.cwd ≠ st.temp_repo_path then
      ⟨w, 1, some (CmdErr.wrongLocation st.temp_repo_path w.cwd)⟩
    else if w.stagingExists = false then
      ⟨{ w with store := none }, 1, some CmdErr.stagingMissing⟩
    else
      killStep
        { w with staging := resetToCommitted w.staging,
                 output := mirror (resetToCommitted w.staging).files w.output,
                 stagingExists := false, store := none }
        (st.shell_pid.getD (-1)) w.livePids

/-- Result of `status_command`: additionally the live git status summary shown
to the user (`none` when unavailable). -/
structure StatusOutcome where
  world : World
  exitCode : Nat
  err : Option CmdErr
  live : Option String
deriving DecidableEq

/-- Transcription of `status_command` (cli.py lines 253-285): load the record
(error if absent) and print it; when the staging directory still exists,
additionally run `git status --short` there — `query` is that subprocess's
result, `none` modelling a raised exception, which the code swallows with
`pass`.  Nothing is written. -/
def status_command (w : World) (query : Option String) : StatusOutcome :=
  match w.store with
  | none => ⟨w, 1, some CmdErr.noActiveSession, none⟩
  | some _ =>
    if w.stagingExists then ⟨w, 0, none, query⟩
    else ⟨w, 0, none, none⟩

/-- The world after one `status_command` invocation. -/
def statusStep (query : Option String) (w : World) : World :=
  (status_command w query).world

/-- Result of `merge_command`: exit code, reported error, the store slot
afterwards, and the freshly created staging directory (path and contents),
if the command got that far. -/
structure MergeOutcome where
  exitCode : Nat
  err : Option CmdErr
  store : Option SessionRecord
  created : Option (String × Staging)
deriving DecidableEq

/-- Transcription of `merge_command` (cli.py lines 38-158): validate that
source and target are directories, build the staging repo at a fresh temp
path, write the session record (unconditionally overwriting the slot — the
code never reads the existing record, cli.py lines 125-133), spawn the shell,
write the record again with the shell's pid, and block until the shell exits.
`store0` is the store slot before the call; `shellPid` the spawned shell's
pid.  The path arguments are the already-resolved absolute paths. -/
def merge_command (store0 : Option SessionRecord) (sourceIsDir targetIsDir : Bool)
    (source target : FileMap)
    (sourcePath targetPath outputPath cwd tmpPath : String) (shellPid : Int) :
    MergeOutcome :=
  if sourceIsDir = false then ⟨1, some CmdErr.sourceMissing, store0, none⟩
  else if targetIsDir = false then ⟨1, some CmdErr.targetMissing, store0, none⟩
  else
    let stg := startStaging source target
    let newRecord : SessionRecord :=
      ⟨tmpPath, cwd, outputPath, sourcePath, targetPath, some shellPid⟩
    ⟨0, none, some newRecord, some (tmpPath, stg)⟩

/-- Filesystem errors raised by the removal primitive. -/
inductive FsErr where
  | fileNotFound : FsErr
deriving DecidableEq

/-- `shutil.rmtree` as invoked at cli.py line 227 (no `ignore_errors`): removes
the directory when present, raises `FileNotFoundError` when absent.  The
argument records whether the path exists. -/
def rmtree (present : Bool) : Except FsErr Unit :=
  if present then Except.ok () else Except.error FsErr.fileNotFound

/-- The staging-directory teardown of `finish_command` (`StagingRepo.destroy`
in the design): exactly the bare `shutil.rmtree` call. -/
def destroy (present : Bool) : Except FsErr Unit :=
  rmtree present

/-! ## Helper lemmas about the commands -/

/-- The staging repo built by `merge_command`, explicitly. -/
theorem startStaging_eq (source target : FileMap) :
    startStaging source target =
      ⟨mirror target source, some ⟨nonGit source, [nonGit source]⟩⟩ := rfl

/-- Whatever happens to the kill, the world after `killStep` is its teardown
argument. -/
theorem killStep_world (w2 : World) (pid : Int) (live : List Int) :
    (killStep w2 pid live).world = w2 := by
  unfold killStep
  split
  · split <;> rfl
  · rfl

/-- `status_command` returns the world unchanged, in every branch. -/
theorem statusStep_eq (query : Option String) (w : World) : statusStep query w = w := by
  unfold statusStep status_command
  cases w.store with
  | none => rfl
  | some r =>
    by_cases hex : w.stagingExists <;> simp [hex]

/-- The world after a `finish_command` that reaches the propagation path. -/
theorem finish_success_world (w : World) (st : SessionRecord) (hs : w.store = some st)
    (hcwd : w.cwd = st.temp_repo_path) (hex : w.stagingExists = true) :
    (finish_command w).world =
      { w with staging := resetToCommitted w.staging,
               output := mirror (resetToCommitted w.staging).files w.output,
               stagingExists := false, store := none } := by
  simp [finish_command, hs, hcwd, hex, killStep_world]

/-! ## Concrete fixtures for witnesses and counterexamples -/

/-- A concrete active-session record. -/
def recA : SessionRecord :=
  ⟨"/tmp/dir-merge-s", "/home/user", "/out", "/src", "/tgt", some 5⟩

/-- A concrete staging repo (empty tree, initialized git). -/
def stagingA : Staging := ⟨[], some ⟨[], []⟩⟩

/-- A record persisted by a previous, still-active session. -/
def oldRecord : SessionRecord :=
  ⟨"/tmp/dir-merge-old", "/home/old", "/out0", "/src0", "/tgt0", some 42⟩

/-- World: active session, caller not inside the staging directory. -/
def wWrongLoc : World := ⟨some recA, "/elsewhere", true, stagingA, [], [5]⟩

/-- World: active session, caller in place, staging directory vanished. -/
def wVanished : World :=
  ⟨some recA, "/tmp/dir-merge-s", false, stagingA, [(["o.txt"], "v")], [5]⟩

/-- World: active session, caller in place, recorded shell pid 5 not live. -/
def wDead : World := ⟨some recA, "/tmp/dir-merge-s", true, stagingA, [], []⟩

/-- World: active session, caller in place, recorded shell pid 5 live. -/
def wLive : World := ⟨some recA, "/tmp/dir-merge-s", true, stagingA, [], [5]⟩

/-- Git metadata with one tracked file, staged and committed with content
"old". -/
def gC3 : GitMeta := ⟨[(["f.txt"], "old")], [[(["f.txt"], "old")]]⟩

/-- Working files after interactive edits: the tracked file modified (never
staged) and one untracked file added. -/
def editedFiles : FileMap := [(["f.txt"], "new"), (["u.txt"], "x")]

/-! ## Claims -/

/-- C1: the spec requires a second `merge` while a session is active to fail
with `SessionAlreadyActiveError` and leave the record and staging directory
alone.  The code has no such check: with a record already in the store and
valid directories, `merge_command` reports no error, exits 0, and overwrites
the single-slot record with the new session's record. -/
theorem merge_overwrites_active_session :
    (merge_command (some oldRecord) true true [] [] "/src" "/tgt" "/src" "/home/user"
      "/tmp/dir-merge-new" 7).err = none ∧
    (merge_command (some oldRecord) true true [] [] "/src" "/tgt" "/src" "/home/user"
      "/tmp/dir-merge-new" 7).exitCode = 0 ∧
    (merge_command (some oldRecord) true true [] [] "/src" "/tgt" "/src" "/home/user"
      "/tmp/dir-merge-new" 7).store =
      some ⟨"/tmp/dir-merge-new", "/home/user", "/src", "/src", "/tgt", some 7⟩ ∧
    (merge_command (some oldRecord) true true [] [] "/src" "/tgt" "/src" "/home/user"
      "/tmp/dir-merge-new" 7).store ≠ some oldRecord := by
  decide

/-- C2 counterexample, at the spec's own scenario (source has `a.txt`:"1",
target has `a.txt`:"2" and `b.txt`:"x"): after start the staging tree does
equal the target's contents, but finish immediately afterwards mirrors the
BASE index — the overlay was never staged, `git checkout -- .` reverts it and
`git clean -fd` removes `b.txt` — so the output is the source's contents, not
the target's. -/
theorem round_trip_yields_source_not_target :
    (startStaging [(["a.txt"], "1")] [(["a.txt"], "2"), (["b.txt"], "x")]).files
      = [(["a.txt"], "2"), (["b.txt"], "x")] ∧
    finishOutput (startStaging [(["a.txt"], "1")] [(["a.txt"], "2"), (["b.txt"], "x")]) []
      = [(["a.txt"], "1")] ∧
    find (finishOutput (startStaging [(["a.txt"], "1")]
      [(["a.txt"], "2"), (["b.txt"], "x")]) []) [("a.txt")] = some "1" ∧
    find (finishOutput (startStaging [(["a.txt"], "1")]
      [(["a.txt"], "2"), (["b.txt"], "x")]) []) [("b.txt")] = none ∧
    ¬ (finishOutput (startStaging [(["a.txt"], "1")] [(["a.txt"], "2"), (["b.txt"], "x")]) []
      = [(["a.txt"], "2"), (["b.txt"], "x")]) := by
  decide

/-- C2 (amended): after start the staging working tree equals the target's
contents (deletions applied, the `.git` subtree preserved as the index and the
BASE commit, both holding the source tree); but running finish immediately
afterwards, with no interactive edits, produces an output tree equal to the
SOURCE's contents — the overlay is never staged, so the reset discards it —
and the metadata subtree never appears in the output. -/
theorem start_finish_round_trip (source target output : FileMap)
    (hs : hasGit source = false) (ho : hasGit output = false) :
    (startStaging source target).files = nonGit target ∧
    (startStaging source target).git = some ⟨source, [source]⟩ ∧
    finishOutput (startStaging source target) output = source ∧
    hasGit (finishOutput (startStaging source target) output) = false := by
  have hng : nonGit source = source := nonGit_eq_self hs
  have hout : finishOutput (startStaging source target) output = source := by
    unfold finishOutput
    rw [startStaging_eq, resetToCommitted_files]
    unfold mirror
    rw [gitPart_eq_nil ho, List.append_nil, nonGit_eq_self (hasGit_nonGit source), hng]
  refine ⟨startStaging_files source target hs, ?_, hout, ?_⟩
  · rw [startStaging_git, hng]
  · rw [hout]
    exact hs

/-- C2 witness: the amended round trip at the spec's scenario. -/
theorem start_finish_round_trip_witness :
    hasGit [(["a.txt"], "1")] = false ∧
    ((startStaging [(["a.txt"], "1")] [(["a.txt"], "2"), (["b.txt"], "x")]).files
        = nonGit [(["a.txt"], "2"), (["b.txt"], "x")] ∧
      (startStaging [(["a.txt"], "1")] [(["a.txt"], "2"), (["b.txt"], "x")]).git
        = some ⟨[(["a.txt"], "1")], [[(["a.txt"], "1")]]⟩ ∧
      finishOutput (startStaging [(["a.txt"], "1")]
        [(["a.txt"], "2"), (["b.txt"], "x")]) [] = [(["a.txt"], "1")] ∧
      hasGit (finishOutput (startStaging [(["a.txt"], "1")]
        [(["a.txt"], "2"), (["b.txt"], "x")]) []) = false) :=
  ⟨by decide,
    start_finish_round_trip [(["a.txt"], "1")] [(["a.txt"], "2"), (["b.txt"], "x")] []
      (by decide) (by decide)⟩

/-- C3: a tracked file modified in the staging tree during the interactive
window but never staged or committed is discarded by finish, and untracked
files are removed: the propagated output is exactly the index (the last
staged/committed state), not the raw working-tree edit. -/
theorem unstaged_edits_discarded (g : GitMeta) (work output : FileMap) (p : RelPath)
    (c₀ c : String) (hidx : hasGit g.index = false) (hout : hasGit output = false)
    (htracked : find g.index p = some c₀) (hedit : find work p = some c) (hne : c ≠ c₀) :
    (resetToCommitted ⟨work, some g⟩).files = g.index ∧
    finishOutput ⟨work, some g⟩ output = g.index ∧
    find (finishOutput ⟨work, some g⟩ output) p = some c₀ ∧
    ∀ q, find g.index q = none → find (finishOutput ⟨work, some g⟩ output) q = none := by
  have h1 := resetToCommitted_files g work
  have h2 : finishOutput ⟨work, some g⟩ output = g.index := by
    unfold finishOutput
    rw [h1]
    unfold mirror
    rw [nonGit_eq_self hidx, gitPart_eq_nil hout, List.append_nil]
  refine ⟨h1, h2, ?_, ?_⟩
  · rw [h2]; exact htracked
  · intro q hq; rw [h2]; exact hq

/-- C3 witness: tracked `f.txt` committed as "old", edited to "new" but never
staged, untracked `u.txt` added; finish propagates "old" and drops `u.txt`. -/
theorem unstaged_edits_discarded_witness :
    find gC3.index ["f.txt"] = some "old" ∧
    find editedFiles ["f.txt"] = some "new" ∧
    ((resetToCommitted ⟨editedFiles, some gC3⟩).files = gC3.index ∧
      finishOutput ⟨editedFiles, some gC3⟩ [] = gC3.index ∧
      find (finishOutput ⟨editedFiles, some gC3⟩ []) ["f.txt"] = some "old" ∧
      ∀ q, find gC3.index q = none → find (finishOutput ⟨editedFiles, some gC3⟩ []) q = none) :=
  ⟨by decide, by decide,
    unstaged_edits_discarded gC3 editedFiles [] ["f.txt"] "old" "new"
      (by decide) (by decide) (by decide) (by decide) (by decide)⟩

/-- C4: invoking finish with the current working directory different from the
staging path fails with `WrongLocationError` reporting both the expected path
(the staging path) and the actual one, exits with status 1, and changes
nothing: the world — session record, staging directory, output — is returned
untouched, so the session stays active. -/
theorem finish_wrong_location (w : World) (st : SessionRecord)
    (hs : w.store = some st) (hcwd : w.cwd ≠ st.temp_repo_path) :
    finish_command w = ⟨w, 1, some (CmdErr.wrongLocation st.temp_repo_path w.cwd)⟩ := by
  simp [finish_command, hs, hcwd]

/-- C4 witness. -/
theorem finish_wrong_location_witness :
    wWrongLoc.store = some recA ∧
    finish_command wWrongLoc =
      ⟨wWrongLoc, 1, some (CmdErr.wrongLocation "/tmp/dir-merge-s" "/elsewhere")⟩ :=
  ⟨rfl, finish_wrong_location wWrongLoc recA rfl (by decide)⟩

/-- C5: when the staging directory of an active session no longer exists,
finish (invoked from the staging path, the only way past the location check)
reports `StagingMissingError`, clears the session record — the session becomes
NoSession — exits with status 1, and performs no propagation: the output
directory is unchanged. -/
theorem finish_staging_missing (w : World) (st : SessionRecord)
    (hs : w.store = some st) (hcwd : w.cwd = st.temp_repo_path)
    (hmiss : w.stagingExists = false) :
    finish_command w = ⟨{ w with store := none }, 1, some CmdErr.stagingMissing⟩ ∧
    (finish_command w).world.store = none ∧
    (finish_command w).world.output = w.output := by
  have h : finish_command w = ⟨{ w with store := none }, 1, some CmdErr.stagingMissing⟩ := by
    simp [finish_command, hs, hcwd, hmiss]
  exact ⟨h, by rw [h], by rw [h]⟩

/-- C5 witness. -/
theorem finish_staging_missing_witness :
    wVanished.store = some recA ∧ wVanished.stagingExists = false ∧
    (finish_command wVanished =
        ⟨{ wVanished with store := none }, 1, some CmdErr.stagingMissing⟩ ∧
      (finish_command wVanished).world.store = none ∧
      (finish_command wVanished).world.output = wVanished.output) :=
  ⟨rfl, rfl, finish_staging_missing wVanished recA rfl rfl rfl⟩

/-- C6: the spec requires the final kill of the recorded shell pid to be
best-effort — its failure must not fail finish.  In the code `os.kill` sits
inside the same try as the teardown and its `ProcessLookupError` is caught by
the generic handler, which exits with status 1: at a world where every prior
step succeeded but pid 5 is no longer live, finish reports `killFailed` and
exits 1, even though the mirror ran, the staging directory was deleted and the
record cleared. -/
theorem finish_kill_failure_exits_nonzero :
    (finish_command wDead).exitCode = 1 ∧
    (finish_command wDead).err = some (CmdErr.killFailed 5) ∧
    (finish_command wDead).world.store = none ∧
    (finish_command wDead).world.stagingExists = false ∧
    (finish_command wDead).world.output = [] := by
  decide

/-- C7 counterexample: the removal primitive actually called by finish is the
bare `shutil.rmtree`, which is not a no-op on an absent directory — it raises
`FileNotFoundError`. -/
theorem destroy_absent_not_noop :
    destroy false = Except.error FsErr.fileNotFound ∧ destroy false ≠ Except.ok () := by
  constructor
  · rfl
  · intro h
    simp [destroy, rmtree] at h

/-- C7 (amended): destroy is not idempotent — removing the staging directory
succeeds when it is present but raises `FileNotFoundError` when it is already
absent; finish only reaches the call after its staging-existence check, so the
error is not reachable through finish. -/
theorem destroy_rmtree_semantics :
    destroy true = Except.ok () ∧ destroy false = Except.error FsErr.fileNotFound :=
  ⟨rfl, rfl⟩

/-- C8: status never writes: for an active session, any number of repetitions
of the status command leaves the whole world — the session record, and the
staging repo's files, index and commits — exactly as it was. -/
theorem status_idempotent (w : World) (r : SessionRecord) (query : Option String)
    (n : Nat) (h : w.store = some r) :
    (statusStep query)^[n] w = w :=
  Function.iterate_fixed (statusStep_eq query w) n

/-- C8 witness: three repetitions on a live session. -/
theorem status_idempotent_witness :
    wLive.store = some recA ∧ (statusStep (some "M f.txt"))^[3] wLive = wLive :=
  ⟨rfl, status_idempotent wLive recA (some "M f.txt") 3 rfl⟩

/-- C9: when the live `git status --short` query against the staging repo
fails (modelled by `query = none`, a raised exception), the status command
swallows the failure: it still exits with status 0, reports no error, shows
the live status as unavailable, and leaves the world unchanged. -/
theorem status_query_failure_swallowed (w : World) (r : SessionRecord)
    (h : w.store = some r) (hex : w.stagingExists = true) :
    status_command w none = ⟨w, 0, none, none⟩ := by
  simp [status_command, h, hex]

/-- C9 witness. -/
theorem status_query_failure_swallowed_witness :
    wLive.store = some recA ∧ status_command wLive none = ⟨wLive, 0, none, none⟩ :=
  ⟨rfl, status_query_failure_swallowed wLive recA rfl rfl⟩

/-- C10: once finish reaches the propagation path, the staging directory is
deleted and the record cleared strictly before the kill is attempted, so the
resulting world has no record and no staging directory regardless of whether
the signal succeeds (the conclusion holds for every `livePids`), and a
subsequent finish or status — with any query outcome — fails with
`NoActiveSessionError`. -/
theorem finish_clears_session_before_kill (w : World) (st : SessionRecord)
    (query : Option String) (hs : w.store = some st)
    (hcwd : w.cwd = st.temp_repo_path) (hex : w.stagingExists = true) :
    (finish_command w).world.store = none ∧
    (finish_command w).world.stagingExists = false ∧
    (finish_command (finish_command w).world).err = some CmdErr.noActiveSession ∧
    (status_command (finish_command w).world query).err = some CmdErr.noActiveSession := by
  have h := finish_success_world w st hs hcwd hex
  rw [h]
  refine ⟨rfl, rfl, rfl, rfl⟩

/-- C10 witness, with the shell pid live (the kill succeeds). -/
theorem finish_clears_session_before_kill_witness :
    wLive.store = some recA ∧
    ((finish_command wLive).world.store = none ∧
      (finish_command wLive).world.stagingExists = false ∧
      (finish_command (finish_command wLive).world).err = some CmdErr.noActiveSession ∧
      (status_command (finish_command wLive).world none).err =
        some CmdErr.noActiveSession) :=
  ⟨rfl, finish_clears_session_before_kill wLive recA none rfl rfl rfl⟩

end DirMerge
